import Mathlib

/-!
Verification of the BER-TLV parser (`src/ber_tlv.c`, `src/ber_tlv.h`).

The C code is shallowly embedded over `Nat`:
* a byte buffer is a `List Nat`; reading memory of type `uint8_t` is
  `byteAt` (values reduced `% 256`, as a byte can only hold 0..255);
* a pointer into the buffer is an offset `Nat` from the buffer start;
* machine-integer truncation is explicit: `% 2^8`, `% 2^16`, `% 2^32` at
  exactly the places where the C stores into a `uint8_t` / `uint16_t` /
  `uint32_t`;
* the C functions keep their source names (the leading `__` of the
  static helpers included);
* `TBerTlvObj` mirrors the struct of `ber_tlv.h`; its `value` pointer
  becomes an offset into the buffer;
* `berTlv_parseRawData` returns `(status, newSize, tlvOut)` where
  `status` distinguishes the C function's four return sites (the two
  error sites are distinguishable in the C by their diagnostic
  messages), `newSize` is the value stored back through the `size`
  pointer, and `tlvOut` is the record threaded through the out
  parameter (fields the C does not write keep their incoming values);
* `__isConstructed`, `__getClassString` and `__getObjTypeString` read
  the bytes of the `uint16_t tag` field through a `uint8_t` pointer;
  this is modelled for a little-endian host (the reference platform),
  where byte `i` of a 16-bit value `x` is `(x >>> (8 * i)) % 256`;
* the walker `berTlv_printFromRawData` is modelled structurally: it
  returns the chronological list of decode calls (`WalkEvent`, with the
  garbage-skip amount of each call), the list of successfully decoded
  records, and whether it stopped on a decode error.  The `sprintf`
  text rendering is not modelled; the walker's control flow, stack
  bookkeeping and pointer movement are modelled exactly, with the
  `while` loop given explicit fuel (`size + 1`, enough for every run
  examined here; exhausted fuel returns the neutral outcome).
-/

/-- Read the byte at offset `i` of buffer `buf` (out-of-range reads give 0;
a `uint8_t` cell holds values below 256, hence the `% 256`). -/
def byteAt (buf : List Nat) (i : Nat) : Nat :=
  buf.getD i 0 % 256

/-- Constant `MIN_HEADER_SIZE` of ber_tlv.c line 29. -/
def MIN_HEADER_SIZE : Nat := 2

/-- Constant `TAG_CLASS_MASK` of ber_tlv.c line 34. -/
def TAG_CLASS_MASK : Nat := 0xC0

/-- Constant `TAG_CLASS_BIT_POS` of ber_tlv.c line 32. -/
def TAG_CLASS_BIT_POS : Nat := 6

/-- Constant `TWO_BYTES_TAG_MASK` of ber_tlv.c line 52. -/
def TWO_BYTES_TAG_MASK : Nat := 0x1F

/-- Constant `TAG_OBJ_TYPE_MASk` of ber_tlv.c line 57 (sic). -/
def TAG_OBJ_TYPE_MASk : Nat := 0x20

/-- Constant `TAG_OBJ_TYPE_BIT_POS` of ber_tlv.c line 55. -/
def TAG_OBJ_TYPE_BIT_POS : Nat := 5

/-- Constant `MULTPLES_BYTES_LENGTH_MASK` of ber_tlv.c line 66. -/
def MULTPLES_BYTES_LENGTH_MASK : Nat := 0x80

/-- Table `BER_TLV_CLASSES` of ber_tlv.c lines 46-49. -/
def BER_TLV_CLASSES : List String :=
  ["universal class", "application class", "context-specific class", "private class"]

/-- Table `BER_TLV_OBJECTS_TYPES` of ber_tlv.c lines 63-64. -/
def BER_TLV_OBJECTS_TYPES : List String :=
  ["primitive", "constructed"]

/-- Struct `TBerTlvObj` of ber_tlv.h: `tag : uint16_t`, `tagSize : uint16_t`,
`lengthValue : uint32_t`, `lengthSize : uint8_t`, `valueSize : uint16_t`,
`value : uint8_t *` (modelled as an offset into the input buffer). -/
structure TBerTlvObj where
  tag : Nat
  tagSize : Nat
  lengthValue : Nat
  lengthSize : Nat
  valueSize : Nat
  value : Nat
deriving Repr, DecidableEq, Inhabited

/-- Outcome of `berTlv_parseRawData`, distinguishing its four return sites:
line 189 (all remaining bytes were garbage and were skipped), line 206
(size below the minimum header size), line 224 (size below
tag+length+value), line 230 (success). -/
inductive ParseStatus where
  | noMoreData
  | insufficientSizeForHeader
  | insufficientSizeForValue
  | parsedOk
deriving Repr, DecidableEq

/-- Function `__getTagSize` (ber_tlv.c lines 261-264). -/
def __getTagSize (fistTagByte : Nat) : Nat :=
  if fistTagByte &&& TWO_BYTES_TAG_MASK = TWO_BYTES_TAG_MASK then 2 else 1

/-- Function `__getTag` (ber_tlv.c lines 266-277); `tag` is a `uint16_t`, so the
shift result is truncated `% 2^16` (a no-op here since the byte shifted
is below 256). -/
def __getTag (buf : List Nat) (off : Nat) : Nat :=
  let b0 := byteAt buf off
  if b0 &&& TWO_BYTES_TAG_MASK = TWO_BYTES_TAG_MASK then
    ((b0 <<< 8) % 2 ^ 16) ||| byteAt buf (off + 1)
  else
    b0

/-- Function `__getLengthFieldSize` (ber_tlv.c lines 279-295): 1 in short form,
`(first byte & 0x7F) + 1` in long form. -/
def __getLengthFieldSize (buf : List Nat) (off : Nat) : Nat :=
  if byteAt buf off &&& MULTPLES_BYTES_LENGTH_MASK ≠ 0 then
    (byteAt buf off &&& 0x7F) + 1
  else
    1

/-- The `while (size)` accumulation loop of `__getLength` (ber_tlv.c lines
302-308): `length <<= 8; length |= *dataPtr;` over `n` bytes starting at
`off`, in a `uint32_t` accumulator. -/
def lengthAccumLoop (buf : List Nat) (off n acc : Nat) : Nat :=
  match n with
  | 0 => acc
  | k + 1 => lengthAccumLoop buf (off + 1) k (((acc <<< 8) % 2 ^ 32) ||| byteAt buf off)

/-- Function `__getLength` (ber_tlv.c lines 297-311).  Note: the loop runs over the
whole length field, the initial length byte included, and the `uint32_t`
accumulator is returned as `uint16_t` (`% 2^16`). -/
def __getLength (buf : List Nat) (off : Nat) : Nat :=
  lengthAccumLoop buf off (__getLengthFieldSize buf off) 0 % 2 ^ 16

/-- The `while (size)` loop of `__getValueSize` (ber_tlv.c lines 324-331):
`valueSize |= *dataPtr;` then `valueSize <<= 8` only when more bytes
remain, in a `uint32_t` accumulator. -/
def valueSizeLoop (buf : List Nat) (off n acc : Nat) : Nat :=
  match n with
  | 0 => acc
  | k + 1 =>
    let a := acc ||| byteAt buf off
    valueSizeLoop buf (off + 1) k (if k = 0 then a else (a <<< 8) % 2 ^ 32)

/-- Function `__getValueSize` (ber_tlv.c lines 313-333): the first length byte is
returned directly in short form and skipped in long form, where the `N`
subsequent bytes are accumulated big-endian. -/
def __getValueSize (buf : List Nat) (off : Nat) : Nat :=
  let size := __getLengthFieldSize buf off
  if size = 1 then byteAt buf off
  else valueSizeLoop buf (off + 1) (size - 1) 0

/-- Byte `i` of the little-endian in-memory representation of a 16-bit
value `x`: models `((uint8_t *)&x)[i]` on the little-endian reference
host. -/
def leByte16 (x i : Nat) : Nat :=
  (x >>> (8 * i)) % 256

/-- Function `__getClassIndex` (ber_tlv.c lines 235-238). -/
def __getClassIndex (tagByte : Nat) : Nat :=
  (tagByte &&& TAG_CLASS_MASK) >>> TAG_CLASS_BIT_POS

/-- Function `__getObjTypeIndex` (ber_tlv.c lines 240-243). -/
def __getObjTypeIndex (tagByte : Nat) : Nat :=
  (tagByte &&& TAG_OBJ_TYPE_MASk) >>> TAG_OBJ_TYPE_BIT_POS

/-- Function `__getClassString` (ber_tlv.c lines 245-251): reads the byte at offset
`tagSize - 1` of the `uint16_t tag` field through a `uint8_t` pointer
(on the little-endian host this is the first encoded tag byte when
`tagSize = 2`, and the tag byte itself when `tagSize = 1`). -/
def __getClassString (tlvObj : TBerTlvObj) : String :=
  BER_TLV_CLASSES.getD (__getClassIndex (leByte16 tlvObj.tag (tlvObj.tagSize - 1))) ""

/-- Function `__getObjTypeString` (ber_tlv.c lines 253-259), same byte access as
`__getClassString`. -/
def __getObjTypeString (tlvObj : TBerTlvObj) : String :=
  BER_TLV_OBJECTS_TYPES.getD (__getObjTypeIndex (leByte16 tlvObj.tag (tlvObj.tagSize - 1))) ""

/-- Function `__isConstructed` (ber_tlv.c lines 335-343): reads byte `tagSize - 1`
of the `uint16_t tag` field when `tagSize > 1`, and byte 0 otherwise
(on the little-endian host). -/
def __isConstructed (tlvObj : TBerTlvObj) : Bool :=
  let tagByte := leByte16 tlvObj.tag (if tlvObj.tagSize > 1 then tlvObj.tagSize - 1 else 0)
  (tagByte &&& TAG_OBJ_TYPE_MASk) >>> TAG_OBJ_TYPE_BIT_POS = 1

/-- Function `__skipGarbageData` (ber_tlv.c lines 365-377): count of the leading
run of 0x00 / 0xFF bytes, bounded by `size`. -/
def __skipGarbageData (buf : List Nat) (off size : Nat) : Nat :=
  match size with
  | 0 => 0
  | k + 1 =>
    if byteAt buf off = 0 ∨ byteAt buf off = 0xFF then
      __skipGarbageData buf (off + 1) k + 1
    else
      0

/-- Lines 193-230 of `berTlv_parseRawData` (everything after the
garbage-skip block), at buffer offset `p` with `size` remaining bytes.
`tlvObjOut->tagSize` is written before the header check, so the
header-error result carries it; the value-error result additionally
carries `tag`, `lengthSize`, `lengthValue` and `valueSize` (lines
208-212), and only the success result carries `value`.  `fullObjSize`
is a `uint8_t` in the C, hence the `% 2^8`. -/
def parseAtOffset (buf : List Nat) (p size : Nat) (tlvIn : TBerTlvObj) :
    ParseStatus × Nat × TBerTlvObj :=
  let tagSize := __getTagSize (byteAt buf p)
  let tlv1 := { tlvIn with tagSize := tagSize }
  let minHeaderSize := MIN_HEADER_SIZE + (if tagSize = 2 then 1 else 0)
  if size < minHeaderSize then
    (ParseStatus.insufficientSizeForHeader, size, tlv1)
  else
    let tag := __getTag buf p
    let p2 := p + tagSize
    let lengthSize := __getLengthFieldSize buf p2
    let lengthValue := __getLength buf p2
    let valueSize := __getValueSize buf p2 % 2 ^ 16
    let tlv2 := { tlv1 with
      tag := tag, lengthSize := lengthSize,
      lengthValue := lengthValue, valueSize := valueSize }
    let fullObjSize := (tagSize + lengthSize + valueSize) % 2 ^ 8
    if size < fullObjSize then
      (ParseStatus.insufficientSizeForValue, size, tlv2)
    else
      (ParseStatus.parsedOk, size, { tlv2 with value := p2 + lengthSize })

/-- Function `berTlv_parseRawData` (ber_tlv.c lines 176-231).  `off` is the data
pointer (offset into `buf`), `size` the value behind the `size` pointer;
the result is `(status, sizeOut, tlvObjOut)`. -/
def berTlv_parseRawData (buf : List Nat) (off size : Nat) (tlvIn : TBerTlvObj)
    (isNotInConstructedObject : Bool) : ParseStatus × Nat × TBerTlvObj :=
  if isNotInConstructedObject then
    let skippedBytes := __skipGarbageData buf off size
    if size - skippedBytes = 0 then
      (ParseStatus.noMoreData, 0, tlvIn)
    else
      parseAtOffset buf (off + skippedBytes) (size - skippedBytes) tlvIn
  else
    parseAtOffset buf off size tlvIn

/-- Wrapping `uint16_t` subtraction: models `a -= b` on a `uint16_t`
lvalue (the subtrahend is reduced mod 2^16 by the conversion). -/
def sub16 (a b : Nat) : Nat :=
  (a % 2 ^ 16 + (2 ^ 16 - b % 2 ^ 16)) % 2 ^ 16

/-- One decode call made by the `berTlv_printFromRawData` loop, with the
walker state at the moment of the call: the `isNotInConstructedObject`
flag passed, `constructedLevels`, the `constructedSizeStack` contents,
the data-pointer offset, and the number of garbage bytes the call skips
(zero whenever the flag is false). -/
structure WalkEvent where
  flagBefore : Bool
  levelsBefore : Nat
  stackBefore : List Nat
  offBefore : Nat
  skipped : Nat
deriving Repr, DecidableEq

/-- Structural outcome of `berTlv_printFromRawData`: the chronological
decode calls, the successfully decoded records in order, and whether the
walk stopped on a decode error. -/
structure WalkOut where
  events : List WalkEvent
  records : List TBerTlvObj
  error : Bool
deriving Repr, DecidableEq

/-- The `while (remainingSize)` loop of `berTlv_printFromRawData`
(ber_tlv.c lines 98-171), modelled structurally (text rendering elided;
pointer movement, stack bookkeeping and the skip-enable flag modelled
exactly).  `stack` is the `uint16_t constructedSizeStack[5]` array,
`levels` is `constructedLevels`, `tlvObj` the loop's `TBerTlvObj`
variable threaded through the iterations as the C reuses it.  The loop
is driven by explicit `fuel`; running out of fuel yields the neutral
outcome (never reached in the runs examined here). -/
def walkLoop (buf : List Nat) (fuel : Nat) (off remainingSize : Nat) (stack : List Nat)
    (levels : Nat) (tlvObj : TBerTlvObj) (isNotInConstructedObject : Bool) : WalkOut :=
  match fuel with
  | 0 => ⟨[], [], false⟩
  | fuel + 1 =>
    if remainingSize = 0 then ⟨[], [], false⟩
    else
      let ev : WalkEvent :=
        ⟨isNotInConstructedObject, levels, stack, off,
          if isNotInConstructedObject then __skipGarbageData buf off remainingSize else 0⟩
      let res := berTlv_parseRawData buf off remainingSize tlvObj isNotInConstructedObject
      let status := res.1
      let newSize := res.2.1
      let tlv := res.2.2
      if status = ParseStatus.insufficientSizeForHeader ∨
          status = ParseStatus.insufficientSizeForValue then
        ⟨[ev], [], true⟩
      else if newSize = 0 then
        ⟨[ev], [], false⟩
      else
        let headerSize := tlv.tagSize + tlv.lengthSize
        if __isConstructed tlv then
          let remaining2 := sub16 newSize headerSize
          let sl :=
            if levels ≠ 0 then
              let s := stack.set (levels - 1)
                (sub16 (stack.getD (levels - 1) 0) (headerSize + tlv.valueSize))
              if s.getD (levels - 1) 0 = 0 then (s, levels - 1) else (s, levels)
            else (stack, levels)
          let stack3 := sl.1.set sl.2 tlv.valueSize
          let rest := walkLoop buf fuel tlv.value remaining2 stack3 (sl.2 + 1) tlv false
          ⟨ev :: rest.events, tlv :: rest.records, rest.error⟩
        else
          let fullObjSize := (headerSize + tlv.valueSize) % 2 ^ 16
          let remaining2 := sub16 newSize fullObjSize
          let slf :=
            if levels ≠ 0 then
              let s := stack.set (levels - 1) (sub16 (stack.getD (levels - 1) 0) fullObjSize)
              if s.getD (levels - 1) 0 = 0 then (s, levels - 1, true)
              else (s, levels, isNotInConstructedObject)
            else (stack, levels, true)
          let rest := walkLoop buf fuel (tlv.value + tlv.valueSize) remaining2 slf.1
            slf.2.1 tlv slf.2.2
          ⟨ev :: rest.events, tlv :: rest.records, rest.error⟩

/-- Function `berTlv_printFromRawData` (ber_tlv.c lines 85-174), structural model:
stack initially five zero entries, `constructedLevels = 0`, the flag
initially true, the loop variable `tlvObj` uninitialised in the C
(modelled by `default`; no run examined here reads it before the parse
function writes it). -/
def berTlv_printFromRawData (buf : List Nat) (size : Nat) : WalkOut :=
  walkLoop buf (size + 1) 0 size (List.replicate 5 0) 0 default true

/-- Modelled from the spec: the big-endian byte string of `len` on `n`
bytes ("those N bytes interpreted as a big-endian unsigned integer",
spec section 4.1 step 5).  The repository contains no encoder; the
round-trip property of spec section 8 presumes an encoder/decoder
pair, so the encoder is taken from the spec's encoding rules. -/
def beBytes : Nat → Nat → List Nat
  | 0, _ => []
  | k + 1, len => (len / 256 ^ k) % 256 :: beBytes k len

/-- Modelled from the spec: tag encoding (spec section 4.1 steps 2 and 4:
a 1-byte tag is the raw byte, a 2-byte tag is the two bytes combined
big-endian with the first byte in the high position). -/
def encodeTag (tag : Nat) : List Nat :=
  if tag < 256 then [tag] else [tag / 256 % 256, tag % 256]

/-- Modelled from the spec: length-field encoding (spec section 4.1 step
5: short form is the single byte 0-127; long form is the byte `0x80|N`
followed by the `N` length bytes big-endian).  `n = 0` selects short
form, `n ≥ 1` long form with `N = n`. -/
def encodeLengthField (len n : Nat) : List Nat :=
  if n = 0 then [len] else (0x80 ||| n) :: beBytes n len

/-- Modelled from the spec: a whole primitive TLV encoding — tag field,
then length field, then the value bytes (spec sections 3 and 4.1). -/
def encodeTlv (tag len : Nat) (value : List Nat) (n : Nat) : List Nat :=
  encodeTag tag ++ encodeLengthField len n ++ value

/-- C1: refuted on the code.  For the long-form length field `81 05`
(`N = 1`), the claim says the decoded `lengthValue` is `5`, the
big-endian value of the single byte following `0x81`; but `__getLength`
runs its accumulation loop over the whole length field including the
initial `0x81` byte, so the record decoded from
`1E 81 05 AA AA AA AA AA` carries `lengthValue = 0x8105 = 33029`
(while `__getValueSize` computes the correct `5`). -/
theorem getLength_includes_initial_byte :
    __getLength [0x1E, 0x81, 0x05, 0xAA, 0xAA, 0xAA, 0xAA, 0xAA] 1 = 33029 ∧
    berTlv_parseRawData [0x1E, 0x81, 0x05, 0xAA, 0xAA, 0xAA, 0xAA, 0xAA] 0 8 default false =
      (ParseStatus.parsedOk, 8,
        { tag := 0x1E, tagSize := 1, lengthValue := 33029,
          lengthSize := 2, valueSize := 5, value := 3 }) ∧
    33029 ≠ 5 := by
  refine ⟨by decide, by decide, by decide⟩

/-- C2: refuted on the code.  The record decoded without error from
`1E 81 01 AA` has `lengthValue = 0x8101 = 33025` (the `__getLength`
accumulation includes the initial `0x81` byte) but `valueSize = 1`
(computed correctly by `__getValueSize`), so the two fields differ for
long-form lengths with `N = 1`. -/
theorem lengthValue_ne_valueSize :
    berTlv_parseRawData [0x1E, 0x81, 0x01, 0xAA] 0 4 default false =
      (ParseStatus.parsedOk, 4,
        { tag := 0x1E, tagSize := 1, lengthValue := 33025,
          lengthSize := 2, valueSize := 1, value := 3 }) ∧
    33025 ≠ 1 := by
  refine ⟨by decide, by decide⟩

/-- C3: refuted on the code.  On `1E 81 FD` with size 3 the decoded
sizes are `tagSize = 1`, `lengthSize = 2`, `valueSize = 253`, so the
claim requires the InsufficientSizeForValue error (3 remaining bytes
are fewer than the 256 the object needs, and also fewer than
`1 + 2 + lengthValue`); but the C computes the total in a `uint8_t`
(`fullObjSize`), `256 % 2^8 = 0`, the check `3 < 0` fails, and the
parse succeeds. -/
theorem insufficientSizeForValue_check_wraps :
    berTlv_parseRawData [0x1E, 0x81, 0xFD] 0 3 default false =
      (ParseStatus.parsedOk, 3,
        { tag := 0x1E, tagSize := 1, lengthValue := 33277,
          lengthSize := 2, valueSize := 253, value := 3 }) ∧
    3 < 1 + 2 + 253 ∧ (1 + 2 + 253) % 2 ^ 8 = 0 := by
  refine ⟨by decide, by decide, by decide⟩

/-- C5: refuted on the code.  Encoding the valid primitive record
(tag `0x4F`, length 5, value `AA BB CC DD EE`) with a long-form `N = 1`
length field gives `4F 81 05 AA BB CC DD EE`; decoding reproduces the
tag, `valueSize = 5` and the value bytes, but the record's decoded
length field value is `lengthValue = 0x8105 = 33029`, not the original
length 5 — the round trip loses the length for long-form `N = 1`. -/
theorem roundTrip_loses_longform_length :
    encodeTlv 0x4F 5 [0xAA, 0xBB, 0xCC, 0xDD, 0xEE] 1 =
      [0x4F, 0x81, 0x05, 0xAA, 0xBB, 0xCC, 0xDD, 0xEE] ∧
    berTlv_parseRawData [0x4F, 0x81, 0x05, 0xAA, 0xBB, 0xCC, 0xDD, 0xEE] 0 8 default false =
      (ParseStatus.parsedOk, 8,
        { tag := 0x4F, tagSize := 1, lengthValue := 33029,
          lengthSize := 2, valueSize := 5, value := 3 }) ∧
    (([0x4F, 0x81, 0x05, 0xAA, 0xBB, 0xCC, 0xDD, 0xEE].drop 3).take 5 =
      [0xAA, 0xBB, 0xCC, 0xDD, 0xEE]) ∧
    33029 ≠ 5 := by
  refine ⟨by decide, by decide, by decide, by decide⟩

/-- C6, counterexample: decoding `9F 02 06 00 00 00 00 01 00` yields one
record, but its class string is not "application class" — the first tag
byte `0x9F` has class bits `10` (context-specific), so the claim's
"class application" is false on the code. -/
theorem tag9F02_class_not_application :
    (berTlv_printFromRawData [0x9F, 0x02, 0x06, 0x00, 0x00, 0x00, 0x00, 0x01, 0x00] 9).records.length = 1 ∧
    __getClassString
      ((berTlv_printFromRawData [0x9F, 0x02, 0x06, 0x00, 0x00, 0x00, 0x00, 0x01, 0x00] 9).records.getD 0 default) ≠
      "application class" := by
  refine ⟨by decide, by decide⟩

/-- C6 as amended: decoding the 9-byte input `9F 02 06 00 00 00 00 01 00`
yields exactly one record with tag `0x9F02` (2 encoded bytes), object
class context-specific, kind primitive, length-field value 6,
`valueSize` 6, and value bytes `00 00 00 00 01 00` (offsets 3-8), with
no error. -/
theorem tag9F02_decodes_context_specific_primitive :
    (berTlv_printFromRawData [0x9F, 0x02, 0x06, 0x00, 0x00, 0x00, 0x00, 0x01, 0x00] 9).error = false ∧
    (berTlv_printFromRawData [0x9F, 0x02, 0x06, 0x00, 0x00, 0x00, 0x00, 0x01, 0x00] 9).records =
      [{ tag := 0x9F02, tagSize := 2, lengthValue := 6,
         lengthSize := 1, valueSize := 6, value := 3 }] ∧
    __getClassString
      { tag := 0x9F02, tagSize := 2, lengthValue := 6, lengthSize := 1, valueSize := 6, value := 3 } =
      "context-specific class" ∧
    __getObjTypeString
      { tag := 0x9F02, tagSize := 2, lengthValue := 6, lengthSize := 1, valueSize := 6, value := 3 } =
      "primitive" ∧
    __isConstructed
      { tag := 0x9F02, tagSize := 2, lengthValue := 6, lengthSize := 1, valueSize := 6, value := 3 } =
      false ∧
    (([0x9F, 0x02, 0x06, 0x00, 0x00, 0x00, 0x00, 0x01, 0x00].drop 3).take 6 =
      [0x00, 0x00, 0x00, 0x00, 0x01, 0x00]) := by
  refine ⟨by decide, by decide, by decide, by decide, by decide, by decide⟩

/-- C8: refuted on the code.  Walking
`E1 07 E2 02 41 00 00 41 00` (constructed `E1` holding constructed `E2`
holding an empty primitive `41`, then one garbage byte `00` and another
primitive `41` still inside `E1`'s declared 7-byte value region,
offsets 2-8): when the inner object `E2` is exhausted, the walker sets
`isNotInConstructedObject` back to true although `E1` is still open
with 3 unconsumed value bytes (`constructedLevels = 1`, stack top 3),
so its fourth decode call skips the `0x00` at offset 6 — a garbage skip
inside a still-open constructed object's declared value region. -/
theorem walker_skips_inside_open_constructed :
    (berTlv_printFromRawData [0xE1, 0x07, 0xE2, 0x02, 0x41, 0x00, 0x00, 0x41, 0x00] 9).events =
      [⟨true, 0, [0, 0, 0, 0, 0], 0, 0⟩,
       ⟨false, 1, [7, 0, 0, 0, 0], 2, 0⟩,
       ⟨false, 2, [3, 2, 0, 0, 0], 4, 0⟩,
       ⟨true, 1, [3, 0, 0, 0, 0], 6, 1⟩] ∧
    ((berTlv_printFromRawData [0xE1, 0x07, 0xE2, 0x02, 0x41, 0x00, 0x00, 0x41, 0x00] 9).events.getD 3
        ⟨false, 0, [], 0, 0⟩).skipped = 1 ∧
    ((berTlv_printFromRawData [0xE1, 0x07, 0xE2, 0x02, 0x41, 0x00, 0x00, 0x41, 0x00] 9).events.getD 3
        ⟨false, 0, [], 0, 0⟩).levelsBefore ≠ 0 ∧
    ((berTlv_printFromRawData [0xE1, 0x07, 0xE2, 0x02, 0x41, 0x00, 0x00, 0x41, 0x00] 9).events.getD 3
        ⟨false, 0, [], 0, 0⟩).stackBefore.getD 0 0 ≠ 0 := by
  refine ⟨by decide, by decide, by decide, by decide⟩

/-- Every byte read through `byteAt` fits in a `uint8_t`. -/
lemma byteAt_lt (buf : List Nat) (i : Nat) : byteAt buf i < 256 :=
  Nat.mod_lt _ (by norm_num)

/-- On a buffer made only of the garbage values 0 and 255,
`__skipGarbageData` consumes its whole size bound, from any offset. -/
lemma skipGarbageData_all (buf : List Nat) (hg : ∀ b ∈ buf, b = 0 ∨ b = 255) :
    ∀ size off, __skipGarbageData buf off size = size := by
  intro size
  induction size with
  | zero => intro off; rfl
  | succ k ih =>
    intro off
    have hb : byteAt buf off = 0 ∨ byteAt buf off = 0xFF := by
      unfold byteAt
      simp only [List.getD_eq_getElem?_getD]
      rcases Nat.lt_or_ge off buf.length with hlt | hle
      · rw [List.getElem?_eq_getElem hlt]
        rcases hg _ (List.getElem_mem hlt) with h0 | h255
        · left; simp [h0]
        · right; simp [h255]
      · rw [List.getElem?_eq_none hle]
        left; rfl
    unfold __skipGarbageData
    rw [if_pos hb, ih]

/-- C9: on the empty buffer or a buffer holding only the garbage bytes
0x00 and 0xFF, the walk of `berTlv_printFromRawData` produces no
records and reports no error: the first decode call skips everything,
returns with size 0 and no error, and the walker stops. -/
theorem walk_garbage_only_no_records_no_error (buf : List Nat) (size : Nat)
    (hg : ∀ b ∈ buf, b = 0 ∨ b = 255) :
    (berTlv_printFromRawData buf size).records = [] ∧
    (berTlv_printFromRawData buf size).error = false := by
  unfold berTlv_printFromRawData
  cases size with
  | zero => exact ⟨rfl, rfl⟩
  | succ n =>
    have hs := skipGarbageData_all buf hg (n + 1) 0
    have hp : berTlv_parseRawData buf 0 (n + 1) default true =
        (ParseStatus.noMoreData, 0, default) := by
      simp [berTlv_parseRawData, hs]
    rw [walkLoop]
    rw [if_neg (Nat.succ_ne_zero n)]
    simp [hp]

/-- C9 witness: the all-garbage buffer `FF FF FF` produces no records
and no error. -/
theorem walk_garbage_only_witness :
    (berTlv_printFromRawData [0xFF, 0xFF, 0xFF] 3).records = [] ∧
    (berTlv_printFromRawData [0xFF, 0xFF, 0xFF] 3).error = false :=
  walk_garbage_only_no_records_no_error [0xFF, 0xFF, 0xFF] 3 (by decide)

/-- C10: when `berTlv_parseRawData` is called with garbage skipping
enabled and the skip consumes the whole remaining size, it returns the
no-error `noMoreData` outcome with size 0, and the output record is
exactly the incoming one — no field of `tlvObjOut` is written. -/
theorem parse_skip_consumes_all_leaves_record (buf : List Nat) (off size : Nat)
    (tlvIn : TBerTlvObj) (h : __skipGarbageData buf off size = size) :
    berTlv_parseRawData buf off size tlvIn true = (ParseStatus.noMoreData, 0, tlvIn) := by
  simp [berTlv_parseRawData, h]

/-- C10 witness: on the all-garbage buffer `00 FF` with size 2, the
caller's record `⟨9, 8, 7, 6, 5, 4⟩` comes back untouched together with
the no-error outcome and size 0. -/
theorem parse_skip_consumes_all_witness :
    __skipGarbageData [0x00, 0xFF] 0 2 = 2 ∧
    berTlv_parseRawData [0x00, 0xFF] 0 2 ⟨9, 8, 7, 6, 5, 4⟩ true =
      (ParseStatus.noMoreData, 0, ⟨9, 8, 7, 6, 5, 4⟩) :=
  ⟨by decide, parse_skip_consumes_all_leaves_record [0x00, 0xFF] 0 2 ⟨9, 8, 7, 6, 5, 4⟩ (by decide)⟩

/-- Helper for C7: `parseAtOffset` reports the header error and returns
the size unchanged whenever the size is below the minimum header size
demanded by the first byte. -/
lemma parseAtOffset_header_err (buf : List Nat) (p size : Nat) (tlvIn : TBerTlvObj)
    (hlt : size < MIN_HEADER_SIZE + (if __getTagSize (byteAt buf p) = 2 then 1 else 0)) :
    (parseAtOffset buf p size tlvIn).1 = ParseStatus.insufficientSizeForHeader ∧
    (parseAtOffset buf p size tlvIn).2.1 = size := by
  simp only [parseAtOffset]
  rw [if_pos hlt]
  exact ⟨rfl, rfl⟩

/-- C7: whenever the remaining size after the permitted garbage skip is
non-zero but below the minimum header size (2, or 3 when the first
remaining byte announces a two-byte tag), `berTlv_parseRawData` reports
the InsufficientSizeForHeader error and consumes nothing: the size it
stores back is exactly the post-skip remaining size. -/
theorem parse_header_too_small (buf : List Nat) (off size : Nat) (tlvIn : TBerTlvObj)
    (flag : Bool)
    (hnz : size - (if flag then __skipGarbageData buf off size else 0) ≠ 0)
    (hlt : size - (if flag then __skipGarbageData buf off size else 0) <
      MIN_HEADER_SIZE +
        (if __getTagSize (byteAt buf (off + (if flag then __skipGarbageData buf off size else 0))) = 2
         then 1 else 0)) :
    (berTlv_parseRawData buf off size tlvIn flag).1 = ParseStatus.insufficientSizeForHeader ∧
    (berTlv_parseRawData buf off size tlvIn flag).2.1 =
      size - (if flag then __skipGarbageData buf off size else 0) := by
  cases flag with
  | false =>
    simp only [Bool.false_eq_true, if_false, Nat.sub_zero, Nat.add_zero] at hnz hlt ⊢
    simp only [berTlv_parseRawData, Bool.false_eq_true, if_false]
    exact parseAtOffset_header_err buf off size tlvIn hlt
  | true =>
    simp only [if_true] at hnz hlt ⊢
    simp only [berTlv_parseRawData, if_true]
    rw [if_neg hnz]
    exact parseAtOffset_header_err buf (off + __skipGarbageData buf off size)
      (size - __skipGarbageData buf off size) tlvIn hlt

/-- C7 witness: a 1-byte buffer whose byte is no garbage and announces a
1-byte tag is below the 2-byte minimum header size, and the parse
reports the header error with the size unchanged. -/
theorem parse_header_too_small_witness :
    (berTlv_parseRawData [0x01] 0 1 default true).1 = ParseStatus.insufficientSizeForHeader ∧
    (berTlv_parseRawData [0x01] 0 1 default true).2.1 =
      1 - (if true then __skipGarbageData [0x01] 0 1 else 0) :=
  parse_header_too_small [0x01] 0 1 default true (by decide) (by decide)

/-- C4, counterexample: the buffer `BF 02 00` decodes without error into
a record with the 2-byte tag `0xBF02` that `__isConstructed` classifies
as constructed, although bit 5 (mask 0x20) of the tag's last encoded
byte `0x02` is clear — so the claim's "constructed exactly when bit 5
of the last encoded byte is set" is false at this input.  (The bit that
decides is bit 5 of the first encoded byte `0xBF`.) -/
theorem isConstructed_not_last_byte_cex :
    berTlv_parseRawData [0xBF, 0x02, 0x00] 0 3 default false =
      (ParseStatus.parsedOk, 3,
        { tag := 0xBF02, tagSize := 2, lengthValue := 0,
          lengthSize := 1, valueSize := 0, value := 3 }) ∧
    __isConstructed
      { tag := 0xBF02, tagSize := 2, lengthValue := 0, lengthSize := 1, valueSize := 0, value := 3 } =
      true ∧
    (0xBF02 % 256) &&& TAG_OBJ_TYPE_MASk = 0 := by
  refine ⟨by decide, by decide, by decide⟩

/-- Bit 5 of a byte through mask 0x20: the shifted test the C performs
agrees with testing the mask. -/
lemma and32_shift_iff (b : Nat) : (b &&& 32) >>> 5 = 1 ↔ b &&& 32 = 32 := by
  have h : b &&& 2 ^ 5 = (b.testBit 5).toNat * 2 ^ 5 := Nat.and_two_pow b 5
  norm_num at h
  rw [h]
  cases b.testBit 5 <;> simp

/-- Combining a byte shifted left by 8 with a low byte is plain
positional arithmetic. -/
lemma shiftLeft8_or (a b : Nat) (hb : b < 256) : (a <<< 8) ||| b = 2 ^ 8 * a + b := by
  have h := Nat.mul_add_lt_is_or (b := b) (i := 8) (by omega) a
  rw [Nat.shiftLeft_eq, Nat.mul_comm a (2 ^ 8), ← h]

/-- Helper for C4: a record successfully produced by `parseAtOffset`
carries the tag and the tag size decoded from the byte at its position. -/
lemma parseAtOffset_ok_tag_fields (buf : List Nat) (p size : Nat) (tlvIn : TBerTlvObj)
    (sz : Nat) (tlv : TBerTlvObj)
    (h : parseAtOffset buf p size tlvIn = (ParseStatus.parsedOk, sz, tlv)) :
    tlv.tag = __getTag buf p ∧ tlv.tagSize = __getTagSize (byteAt buf p) := by
  simp only [parseAtOffset] at h
  split at h
  · split at h
    · simp at h
    · split at h
      · simp at h
      · simp only [Prod.mk.injEq] at h
        exact ⟨by rw [← h.2.2], by rw [← h.2.2]⟩
  · split at h
    · simp at h
    · split at h
      · simp at h
      · simp only [Prod.mk.injEq] at h
        exact ⟨by rw [← h.2.2], by rw [← h.2.2]⟩

/-- Helper for C4: a record whose `tag` and `tagSize` fields hold the
values the decoder computes from the first two bytes `b0 b1` at the tag
position is classified constructed exactly when bit 5 (mask 0x20) of
`b0` — the first encoded tag byte — is set. -/
lemma isConstructed_spec (tlv : TBerTlvObj) (b0 b1 : Nat) (hb0 : b0 < 256) (hb1 : b1 < 256)
    (htagsize : tlv.tagSize =
      if b0 &&& TWO_BYTES_TAG_MASK = TWO_BYTES_TAG_MASK then 2 else 1)
    (htag : tlv.tag =
      if b0 &&& TWO_BYTES_TAG_MASK = TWO_BYTES_TAG_MASK then ((b0 <<< 8) % 2 ^ 16) ||| b1
      else b0) :
    (__isConstructed tlv = true ↔ b0 &&& TAG_OBJ_TYPE_MASk = TAG_OBJ_TYPE_MASk) := by
  by_cases hc : b0 &&& TWO_BYTES_TAG_MASK = TWO_BYTES_TAG_MASK
  · rw [if_pos hc] at htagsize htag
    have e1 : (b0 <<< 8) % 2 ^ 16 = b0 <<< 8 := by
      rw [Nat.shiftLeft_eq]
      exact Nat.mod_eq_of_lt (by norm_num; omega)
    have e2 : tlv.tag = 2 ^ 8 * b0 + b1 := by
      rw [htag, e1, shiftLeft8_or b0 b1 hb1]
    have e3 : ((256 * b0 + b1) >>> 8) % 256 = b0 := by
      rw [Nat.shiftRight_eq_div_pow]
      norm_num
      rw [Nat.mul_add_div (show (0 : Nat) < 256 by norm_num),
        Nat.div_eq_of_lt hb1, Nat.add_zero]
      exact Nat.mod_eq_of_lt hb0
    simp only [__isConstructed, leByte16, htagsize, e2]
    norm_num
    rw [e3]
    simp only [TAG_OBJ_TYPE_MASk, TAG_OBJ_TYPE_BIT_POS, decide_eq_true_eq]
    exact and32_shift_iff b0
  · rw [if_neg hc] at htagsize htag
    simp only [__isConstructed, leByte16, htagsize, htag]
    norm_num
    rw [Nat.mod_eq_of_lt hb0]
    simp only [TAG_OBJ_TYPE_MASk, TAG_OBJ_TYPE_BIT_POS, decide_eq_true_eq]
    exact and32_shift_iff b0

/-- Helper for C4: combining the two lemmas above at an arbitrary
successful `parseAtOffset` call. -/
lemma parseAtOffset_isConstructed_iff (buf : List Nat) (p size : Nat) (tlvIn : TBerTlvObj)
    (sz : Nat) (tlv : TBerTlvObj)
    (h : parseAtOffset buf p size tlvIn = (ParseStatus.parsedOk, sz, tlv)) :
    (__isConstructed tlv = true ↔ byteAt buf p &&& TAG_OBJ_TYPE_MASk = TAG_OBJ_TYPE_MASk) := by
  obtain ⟨ht, hts⟩ := parseAtOffset_ok_tag_fields buf p size tlvIn sz tlv h
  refine isConstructed_spec tlv (byteAt buf p) (byteAt buf (p + 1))
    (byteAt_lt buf p) (byteAt_lt buf (p + 1)) ?_ ?_
  · rw [hts]; rfl
  · rw [ht]; rfl

/-- C4 as amended: every record `berTlv_parseRawData` decodes
successfully is classified constructed exactly when bit 5 (mask 0x20)
of the tag's FIRST encoded byte — the buffer byte at the tag's
position, after any garbage skip — is set, and primitive when that bit
is clear.  (On the little-endian reference host the pointer arithmetic
of `__isConstructed` selects byte `tagSize - 1` of the `uint16_t` tag
value, which is the first encoded byte.) -/
theorem isConstructed_iff_first_byte_bit5 (buf : List Nat) (off size : Nat)
    (tlvIn : TBerTlvObj) (flag : Bool) (sz : Nat) (tlv : TBerTlvObj)
    (h : berTlv_parseRawData buf off size tlvIn flag = (ParseStatus.parsedOk, sz, tlv)) :
    (__isConstructed tlv = true ↔
      byteAt buf (off + (if flag then __skipGarbageData buf off size else 0)) &&&
        TAG_OBJ_TYPE_MASk = TAG_OBJ_TYPE_MASk) := by
  cases flag with
  | false =>
    simp only [Bool.false_eq_true, if_false, Nat.add_zero]
    simp only [berTlv_parseRawData, Bool.false_eq_true, if_false] at h
    exact parseAtOffset_isConstructed_iff buf off size tlvIn sz tlv h
  | true =>
    simp only [if_true]
    simp only [berTlv_parseRawData, if_true] at h
    by_cases hz : size - __skipGarbageData buf off size = 0
    · rw [if_pos hz] at h
      exact absurd (congrArg Prod.fst h) (by simp)
    · rw [if_neg hz] at h
      exact parseAtOffset_isConstructed_iff buf (off + __skipGarbageData buf off size)
        (size - __skipGarbageData buf off size) tlvIn sz tlv h

/-- C4 witness: the record decoded from `21 00` (1-byte tag `0x21`,
whose bit 5 is set) instantiates the amended theorem: it is classified
constructed, and the first encoded byte's bit 5 is set. -/
theorem isConstructed_iff_first_byte_bit5_witness :
    (__isConstructed
        { tag := 0x21, tagSize := 1, lengthValue := 0, lengthSize := 1, valueSize := 0, value := 2 } =
        true ↔
      byteAt [0x21, 0x00] (0 + (if false then __skipGarbageData [0x21, 0x00] 0 2 else 0)) &&&
        TAG_OBJ_TYPE_MASk = TAG_OBJ_TYPE_MASk) :=
  isConstructed_iff_first_byte_bit5 [0x21, 0x00] 0 2 default false 2
    { tag := 0x21, tagSize := 1, lengthValue := 0, lengthSize := 1, valueSize := 0, value := 2 }
    (by decide)
